import Mathlib

/-!
Shallow embedding of the aiohttp tracing integration of this repository
(src/ddtrace/contrib/aiohttp/patch.py and
src/ddtrace/contrib/aiohttp/middlewares.py), together with theorems that
settle the frozen claims about it.

Conventions of the embedding:
- Trace identifiers and span identifiers are Nat, with 0 standing for the
  Python value None: in every truth test the source performs on such a
  value (for example `if self._self_parent_trace_id:`), both None and 0 are
  falsy, so a single Nat with 0 as the falsy value is faithful.
- The external tracer engine (span objects, finish, set_traceback, context
  activation, header propagation) is not part of src/; the helpers that
  stand for it carry a doc comment starting with `Modelled from the spec:`
  and follow the words of the spec. Everything else is translated directly
  from the cited source lines.
- Spans are records of the tags and flags the source mutates; finishing is
  counted (finishCount) because the claims quantify how often the finish
  routine executes.
-/

namespace DDAiohttp

/-- A Python exception value. The field `isExc` records whether the value is
an instance of the class Exception: an `except Exception` clause catches it
exactly when `isExc` is true, while `except BaseException` catches every
exception. KeyboardInterrupt, SystemExit and (on modern runtimes)
asyncio.CancelledError are BaseException but not Exception, so they carry
`isExc = false`. -/
structure Exc where
  name : String
  isExc : Bool
deriving DecidableEq, Repr

/-- A client response as `_handle_response` sees it: status and headers. -/
structure Resp where
  status : Nat
  headers : List (String × String)
deriving DecidableEq, Repr

/-- Outcome of awaiting the wrapped operation: a response, or an exception
raised through the await (any BaseException, including cancellation). -/
inductive Outcome where
  | ok (r : Resp)
  | exn (e : Exc)
deriving DecidableEq, Repr

/-- The pin configuration fields `_handle_response` and `__aexit__` read
(`pin._config["trace_context"]` and `pin._config["trace_headers"]`). -/
structure ClientCfg where
  trace_context : Bool
  trace_headers : List String
deriving DecidableEq, Repr

/-- The span bound to a `_WrappedRequestContext` proxy, reduced to the
fields the proxy code mutates. `finishCount` counts the invocations of the
finish routine. -/
structure ClientSpan where
  statusTag : Option Nat
  error : Nat
  tracebackSet : Bool
  headerTags : List (String × String)
  finishCount : Nat
deriving DecidableEq, Repr

/-- A freshly started client span, before the proxy touches it. -/
def ClientSpan.fresh : ClientSpan :=
  ⟨none, 0, false, [], 0⟩

/-- Modelled from the spec: `Span.set_traceback` lives in the external
tracer engine; per the spec the span is tagged with an error marker and
stack/traceback information when the wrapped operation raises. -/
def ClientSpan.set_traceback (sp : ClientSpan) : ClientSpan :=
  { sp with error := 1, tracebackSet := true }

/-- Modelled from the spec: `Span.finish` lives in the external tracer
engine; the claims count how often the wrapper executes it, so the model
increments a counter. -/
def ClientSpan.finish (sp : ClientSpan) : ClientSpan :=
  { sp with finishCount := sp.finishCount + 1 }

/-- Case-sensitive header lookup, `resp.headers[hdr]` for `hdr in resp.headers`. -/
def lookupHeader (hs : List (String × String)) (k : String) : Option String :=
  (hs.find? (fun p => p.1 = k)).map (fun p => p.2)

/-- Result of one interaction with the proxy: the value returned to the
caller, the Python value None (returned by a successful `__aexit__`), or a
re-raised exception. -/
inductive HandleRes where
  | ok (r : Resp)
  | okNone
  | raised (e : Exc)
deriving DecidableEq, Repr

/-- Embedding of `_WrappedRequestContext._handle_response`
(patch.py lines 187-206).

On success: copy the configured trace headers into span tags
(`if pin._config["trace_headers"]:` — a nonempty list is truthy), set the
status tag, assign `error = int(500 <= resp.status)`, and return the
response. On any BaseException: `set_traceback` and re-raise. In both
cases the `finally` block finishes the span exactly when
`not self._self_have_context or not pin._config["trace_context"]`. -/
def handle_response (cfg : ClientCfg) (have_context : Bool) (sp : ClientSpan)
    (out : Outcome) : ClientSpan × HandleRes :=
  match out with
  | .ok resp =>
      let sp :=
        if !cfg.trace_headers.isEmpty then
          { sp with headerTags :=
              (sp.headerTags ++ cfg.trace_headers.filterMap
                (fun h => (lookupHeader resp.headers h).map (fun v => (h, v)))) }
        else sp
      let sp := { sp with statusTag := some resp.status,
                          error := if 500 ≤ resp.status then 1 else 0 }
      let sp := if !have_context || !cfg.trace_context then sp.finish else sp
      (sp, .ok resp)
  | .exn e =>
      let sp := sp.set_traceback
      let sp := if !have_context || !cfg.trace_context then sp.finish else sp
      (sp, .raised e)

/-- State of a `_WrappedRequestContext` proxy: the `_self_have_context`
flag, whether the wrapped coroutine has already been consumed (a second
await of the same coroutine raises RuntimeError in Python), and the bound
span. -/
structure ProxyState where
  have_context : Bool
  consumed : Bool
  span : ClientSpan
deriving DecidableEq, Repr

/-- The initial proxy state built by `_WrappedRequestContext.__init__`
(patch.py lines 181-185): `_self_have_context = False` and a fresh span. -/
def ProxyState.init : ProxyState :=
  ⟨false, false, ClientSpan.fresh⟩

/-- The RuntimeError Python raises when an already awaited coroutine is
awaited again. -/
def runtimeErrReuse : Exc := ⟨"RuntimeError", true⟩

/-- The AttributeError raised by reading `self._self_trace_context` on the
proxy: that attribute is assigned nowhere in the source (only
`_self_have_context` and `_self_span` are), and neither the proxy nor the
wrapped aiohttp request context object defines it, so the lookup in
`__aexit__` (patch.py line 225) fails. -/
def attributeErrTraceCtx : Exc := ⟨"AttributeError", true⟩

/-- The three ways the caller can interact with the proxy: bare awaiting or
iteration (`__await__` / `__iter__`), scoped entry (`__aenter__`), scoped
exit (`__aexit__`). -/
inductive Act where
  | bareAwait
  | aenter
  | aexit
deriving DecidableEq, Repr

/-- One interaction with the proxy (patch.py lines 209-227), given the
outcome `out` the wrapped operation would produce on its first consumption.

`__await__` and `__iter__` run `_handle_response` on the wrapped awaitable;
`__aenter__` first sets `_self_have_context = True` and then runs
`_handle_response` on the wrapped `__aenter__()`. Consuming the wrapped
coroutine a second time raises RuntimeError through the same path.
`__aexit__` awaits the wrapped exit, then in its `finally` evaluates
`self._self_have_context and self._self_trace_context`: when
`_self_have_context` is false the conjunction short-circuits and nothing
happens; when it is true, reading the never-assigned `_self_trace_context`
raises AttributeError, so the branch that would finish the span is
unreachable and `__aexit__` never finishes it. -/
def stepProxy (cfg : ClientCfg) (out : Outcome) (st : ProxyState) :
    Act → ProxyState × HandleRes
  | .bareAwait =>
      let eff := if st.consumed then Outcome.exn runtimeErrReuse else out
      let (sp, r) := handle_response cfg st.have_context st.span eff
      ({ st with consumed := true, span := sp }, r)
  | .aenter =>
      let st := { st with have_context := true }
      let eff := if st.consumed then Outcome.exn runtimeErrReuse else out
      let (sp, r) := handle_response cfg st.have_context st.span eff
      ({ st with consumed := true, span := sp }, r)
  | .aexit =>
      if st.have_context then (st, .raised attributeErrTraceCtx)
      else (st, .okNone)

/-- Run a sequence of interactions against a freshly constructed proxy,
collecting the result of each interaction in order. -/
def runProxyFrom (cfg : ClientCfg) (out : Outcome) (st : ProxyState) :
    List Act → ProxyState × List HandleRes
  | [] => (st, [])
  | a :: rest =>
      let (st2, r) := stepProxy cfg out st a
      let (stf, rs) := runProxyFrom cfg out st2 rest
      (stf, r :: rs)

/-- Run a sequence of interactions starting from `ProxyState.init`. -/
def runProxy (cfg : ClientCfg) (out : Outcome) (acts : List Act) :
    ProxyState × List HandleRes :=
  runProxyFrom cfg out ProxyState.init acts

/-- The pair of identifiers of a live span, as read from
`parent_span.trace_id` and `parent_span.span_id`. -/
structure SpanIds where
  trace_id : Nat
  span_id : Nat
deriving DecidableEq, Repr

/-- The call context returned by `pin.tracer.get_call_context()` at proxy
construction time: the current span of the constructing task, if any, plus
the context level trace and span identifiers (0 stands for None). -/
structure CallCtx where
  current_span : Option SpanIds
  trace_id : Nat
  span_id : Nat
deriving DecidableEq, Repr

/-- The reparenting anchor a `_WrappedResponseClass` stores:
`_self_parent_trace_id` and `_self_parent_span_id` (0 stands for None). -/
structure RespCapture where
  parent_trace_id : Nat
  parent_span_id : Nat
deriving DecidableEq, Repr

/-- Embedding of the capture logic of `_WrappedResponseClass.__init__`
(patch.py lines 121-128): when the constructing context has a current span,
capture that span trace and span identifiers; otherwise fall back to the
trace and span identifiers of the context itself. -/
def wrappedResponseInit (ctx : CallCtx) : RespCapture :=
  match ctx.current_span with
  | some sp => ⟨sp.trace_id, sp.span_id⟩
  | none => ⟨ctx.trace_id, ctx.span_id⟩

/-- The span created by `_WrappedResponseClass.read`, reduced to the fields
the method sets. -/
structure ReadSpan where
  trace_id : Nat
  parent_id : Nat
  statusTag : Option Nat
  lengthTag : Option Nat
  finishCount : Nat
deriving DecidableEq, Repr

/-- Embedding of `_WrappedResponseClass.read` (patch.py lines 152-169) for
a successful body read. `pin.tracer.trace` starts a span in the ambient
context of the reading task (identifiers `ambientTrace`, `ambientParent`);
then `if self._self_parent_trace_id:` overrides the trace identifier and
`if self._self_parent_span_id:` overrides the parent identifier with the
captured anchor (0 models a falsy None/0 capture, which leaves the ambient
value in place). The `with` block finishes the span once. -/
def wrappedResponseRead (cap : RespCapture) (ambientTrace ambientParent : Nat)
    (status len : Nat) : ReadSpan :=
  let t := if cap.parent_trace_id ≠ 0 then cap.parent_trace_id else ambientTrace
  let p := if cap.parent_span_id ≠ 0 then cap.parent_span_id else ambientParent
  { trace_id := t, parent_id := p, statusTag := some status,
    lengthTag := some len, finishCount := 1 }

/-- A trace context as the server middleware handles it: the pair of trace
and span identifiers, with 0 standing for None. `Context()` in the source
is the empty context. -/
structure Ctx where
  trace_id : Nat
  span_id : Nat
deriving DecidableEq, Repr

/-- The empty context `Context()`: no trace identifier. -/
def Ctx.empty : Ctx := ⟨0, 0⟩

/-- The per application configuration dict `app[CONFIG_KEY]` as the
middleware and the finalization hook read it (tracer and the sample rate
value are kept out of the model: the claims never inspect them, and the
rate is a float). `analytics_enabled` is the three valued None/True/False;
`trace_query_string` is the optional value `.get("trace_query_string")`
returns (none when the key is absent or None). -/
structure MwConfig where
  distributed_tracing_enabled : Bool
  analytics_enabled : Option Bool
  trace_query_string : Option Bool
  service : String
deriving DecidableEq, Repr

/-- The inbound request span, reduced to the fields the middleware and the
finalization hook mutate. -/
structure MwSpan where
  trace_id : Nat
  span_id : Nat
  resource : String
  error : Nat
  tracebackSet : Bool
  measured : Bool
  analyticsTag : Bool
  methodTag : Option String
  statusTag : Option Nat
  urlTag : Option String
  queryTag : Option String
  finishCount : Nat
deriving DecidableEq, Repr

/-- Modelled from the spec: `tracer.trace` is the external tracer engine.
Per the spec, a span started while a context with a trace identifier is
active joins that trace; with an empty active context the tracer mints
fresh identifiers (`fresh`). The span starts untagged and unfinished. -/
def startRequestSpan (active fresh : Ctx) : MwSpan :=
  { trace_id := if active.trace_id ≠ 0 then active.trace_id else fresh.trace_id,
    span_id := fresh.span_id,
    resource := "aiohttp.request", error := 0, tracebackSet := false,
    measured := false, analyticsTag := false, methodTag := none,
    statusTag := none, urlTag := none, queryTag := none, finishCount := 0 }

/-- Modelled from the spec: `Span.set_traceback` on the request span, per
the spec tagging the span with error and traceback information. -/
def MwSpan.set_traceback (sp : MwSpan) : MwSpan :=
  { sp with error := 1, tracebackSet := true }

/-- Outcome of awaiting the wrapped handler. -/
inductive HandlerOutcome where
  | ok (status : Nat)
  | raise (e : Exc)
deriving DecidableEq, Repr

/-- What the middleware call produces: the handler response, or a re-raised
exception. -/
inductive MwOutcome where
  | resp (status : Nat)
  | raised (e : Exc)
deriving DecidableEq, Repr

/-- Everything `trace_middleware_2x` leaves behind: the context activated
on the context provider, the request span, the three request scoped storage
keys it wrote, and the value or exception it propagates. -/
structure MwResult where
  active : Ctx
  span : MwSpan
  storageSpan : Option MwSpan
  storageCtx : Option Ctx
  storageCfg : Option MwConfig
  outcome : MwOutcome
deriving DecidableEq, Repr

/-- Embedding of `trace_middleware_2x` (middlewares.py lines 33-72; the
module keeps this function inside a quoted out block, and these are the
lines the claims cite).

Inputs: the global `config.analytics_enabled` flag, the application config,
the context the propagator extracted from the inbound headers (per the spec
extraction of absent or malformed headers yields an empty context, trace
identifier 0), the context active on the reused concurrency unit before
this request (`prior`), fresh identifiers for the new span, and the handler
outcome.

Steps, in source order: when distributed tracing is enabled, activate the
extracted context if it has a trace identifier and otherwise explicitly
activate the empty `Context()`; when disabled, leave the prior context
active. Start the request span in the active context, tag it measured, tag
the analytics sample rate when
`(config.analytics_enabled and analytics_enabled is not False) or
analytics_enabled is True`. Write the three request scoped keys. Await the
handler: on success return the response; on an exception caught by
`except Exception` call `set_traceback` and re-raise; a BaseException that
is not an Exception propagates untouched. The middleware never finishes the
span. -/
def trace_middleware_2x (globalAnalytics : Bool) (cfg : MwConfig)
    (extracted prior fresh : Ctx) (out : HandlerOutcome) : MwResult :=
  let active :=
    if cfg.distributed_tracing_enabled then
      if extracted.trace_id ≠ 0 then extracted else Ctx.empty
    else prior
  let span := startRequestSpan active fresh
  let span := { span with measured := true }
  let analytics :=
    (globalAnalytics && !(cfg.analytics_enabled == some false)) ||
      (cfg.analytics_enabled == some true)
  let span := if analytics then { span with analyticsTag := true } else span
  let spanCtx : Ctx := ⟨span.trace_id, span.span_id⟩
  match out with
  | .ok s =>
      { active := active, span := span, storageSpan := some span,
        storageCtx := some spanCtx, storageCfg := some cfg,
        outcome := .resp s }
  | .raise e =>
      let span := if e.isExc then span.set_traceback else span
      { active := active, span := span, storageSpan := some span,
        storageCtx := some spanCtx, storageCfg := some cfg,
        outcome := .raised e }

/-- The route information `on_prepare` reads: whether
`request.match_info.route.resource` is truthy, and the `get_info()` fields
it probes, each an optional string (`pfx` stands for the third field of the
probe chain in the source). Python truthiness makes an empty string falsy,
hence `truthyStr` below. -/
structure RouteInfo where
  present : Bool
  path : Option String
  formatter : Option String
  pfx : Option String
deriving DecidableEq, Repr

/-- Python truthiness of an optional string: None and the empty string are
falsy. -/
def truthyStr : Option String → Bool
  | none => false
  | some s => !s.isEmpty

/-- The request scoped storage map, holding the three keys the interceptors
write: the request span, the trace context, the resolved configuration. -/
structure ReqStorage where
  spanKey : Option MwSpan
  contextKey : Option Ctx
  configKey : Option MwConfig
deriving DecidableEq, Repr

/-- The request as the finalization hook reads it. -/
structure PrepReq where
  storage : ReqStorage
  method : String
  route : RouteInfo
  urlNoQuery : String
  queryString : String
deriving DecidableEq, Repr

/-- The prepared response as the finalization hook reads it. -/
structure PrepResp where
  status : Nat
deriving DecidableEq, Repr

/-- What a call to the finalization hook does: return without touching
anything (`noop`), finalize and finish the span, or raise KeyError on the
`request[REQUEST_CONFIG_KEY]` item lookup — in that last case `sp` is the
state of the span at the moment the error is raised: already tagged, not
finished. -/
inductive PrepResult where
  | noop
  | finalized (sp : MwSpan)
  | keyErrorAt (sp : MwSpan)
deriving DecidableEq, Repr

/-- Embedding of `on_prepare` (middlewares.py lines 90-129, inside the same
quoted out block the claims cite).

`request.get(REQUEST_SPAN_KEY, None)` with a falsy result returns at once.
Otherwise: default resource is `stringify(response.status)`; when the route
resource is truthy the resource becomes the first truthy field of the probe
chain path / formatter / pfx (falling back to the status string), prefixed
by the request method. Status in [500, 600) sets the error flag. Resource,
method, status and query stripped URL tags are set. Then
`request[REQUEST_CONFIG_KEY]` is an item lookup, not a `.get`: a missing
configuration key raises KeyError at this point. The query string tag is
set when the per request `trace_query_string` (or, when that is None, the
global one) is truthy. Finally the span is finished. -/
def on_prepare (globalTraceQueryString : Bool) (req : PrepReq)
    (resp : PrepResp) : PrepResult :=
  match req.storage.spanKey with
  | none => .noop
  | some sp =>
      let resource :=
        if req.route.present then
          let base :=
            if truthyStr req.route.path then req.route.path.getD ""
            else if truthyStr req.route.formatter then req.route.formatter.getD ""
            else if truthyStr req.route.pfx then req.route.pfx.getD ""
            else toString resp.status
          req.method ++ " " ++ base
        else toString resp.status
      let sp := if 500 ≤ resp.status ∧ resp.status < 600 then { sp with error := 1 } else sp
      let sp := { sp with resource := resource,
                          methodTag := some req.method,
                          statusTag := some resp.status,
                          urlTag := some req.urlNoQuery }
      match req.storage.configKey with
      | none => .keyErrorAt sp
      | some cfg =>
          let tqs :=
            match cfg.trace_query_string with
            | none => globalTraceQueryString
            | some b => b
          let sp := if tqs then { sp with queryTag := some req.queryString } else sp
          .finalized { sp with finishCount := sp.finishCount + 1 }

/-- The aiohttp application object, reduced to the parts `trace_app` would
touch if it did anything: the middleware list, the response prepare hook
list, the `app[CONFIG_KEY]` entry, and the `__datadog_trace` marker. -/
structure AppState where
  middlewares : List String
  on_response_prepare : List String
  configEntry : Option MwConfig
  datadogTraceFlag : Bool
deriving DecidableEq, Repr

/-- A tracer reference, opaque to `trace_app`. -/
structure TracerRef where
  enabled : Bool
deriving DecidableEq, Repr

/-- Embedding of the live `trace_app` (middlewares.py lines 167-168): its
whole body is `pass`, so it reads nothing, writes nothing, and returns the
Python value None. The result pairs the application state after the call
with the returned value. -/
def trace_app (app : AppState) (tracer : TracerRef) (service : String) :
    AppState × Option Unit :=
  (app, none)

/-- Projection used to inspect a finalization result: the error flag of the
finalized span, when the hook finalized one. -/
def prepErrorFlag : PrepResult → Option Nat
  | .finalized sp => some sp.error
  | _ => none

/-- Whether a finalization result is the KeyError raise. -/
def prepRaisesKeyError : PrepResult → Bool
  | .keyErrorAt _ => true
  | _ => false

/-- Full characterization of `on_prepare` when both the span key and the
configuration key are present in the request scoped storage: the hook
finalizes, finishing the span exactly once and setting the documented
resource, error, method, status and URL fields. -/
theorem on_prepare_finalized (gq : Bool) (req : PrepReq) (resp : PrepResp)
    (sp : MwSpan) (cfg : MwConfig)
    (hs : req.storage.spanKey = some sp) (hc : req.storage.configKey = some cfg) :
    ∃ sp2, on_prepare gq req resp = .finalized sp2 ∧
      sp2.finishCount = sp.finishCount + 1 ∧
      sp2.statusTag = some resp.status ∧
      sp2.methodTag = some req.method ∧
      sp2.urlTag = some req.urlNoQuery ∧
      sp2.error = (if 500 ≤ resp.status ∧ resp.status < 600 then 1 else sp.error) ∧
      sp2.resource = (if req.route.present then
          req.method ++ " " ++
            (if truthyStr req.route.path then req.route.path.getD ""
             else if truthyStr req.route.formatter then req.route.formatter.getD ""
             else if truthyStr req.route.pfx then req.route.pfx.getD ""
             else toString resp.status)
        else toString resp.status) := by
  rcases hq : cfg.trace_query_string with _ | b <;>
    (simp only [on_prepare, hs, hc, hq]
     split_ifs <;> exact ⟨_, rfl, by simp, by simp, by simp, by simp, by simp, by simp⟩)

/-- C1: the claim states that for every sequence of interactions with a
`_WrappedRequestContext` proxy — bare awaiting or iteration, scoped entry,
scoped exit, in any combination including double entry or double exit — the
finish routine of the bound span executes exactly once per logical
operation. The code violates this in both directions: with the
trace_context flag enabled, a single scoped entry followed by the matching
scoped exit executes finish zero times, because `_handle_response` defers
and `__aexit__` dies on the never-assigned `_self_trace_context` attribute
before reaching its finish call; and with the flag disabled, entering the
scope twice executes finish twice. This theorem evaluates the embedded code
on both failing interaction sequences. -/
theorem c1_finish_count_violations :
    ((runProxy (ClientCfg.mk true []) (Outcome.ok (Resp.mk 200 []))
        [Act.aenter, Act.aexit]).1.span.finishCount = 0) ∧
    ((runProxy (ClientCfg.mk false []) (Outcome.ok (Resp.mk 200 []))
        [Act.aenter, Act.aenter]).1.span.finishCount = 2) := by
  decide

/-- C2: the claim states that with the trace_context flag enabled, a span
bound to a proxy consumed via scoped entry/exit is not finished during
`__aenter__` response handling (true) and is finished by the matching
`__aexit__` call (false on the code): the teardown branch of `__aexit__`
reads `self._self_trace_context`, an attribute no code path ever assigns
(`_handle_response` reads the configuration key of the same name instead),
so `__aexit__` raises AttributeError and the finish call guarded behind the
conjunction is unreachable. This theorem evaluates the embedded code on the
failing sequence: zero finishes after entry, still zero after exit, and the
exit raises AttributeError. -/
theorem c2_aexit_never_finishes :
    ((runProxy (ClientCfg.mk true []) (Outcome.ok (Resp.mk 200 []))
        [Act.aenter]).1.span.finishCount = 0) ∧
    ((runProxy (ClientCfg.mk true []) (Outcome.ok (Resp.mk 200 []))
        [Act.aenter, Act.aexit]).1.span.finishCount = 0) ∧
    ((runProxy (ClientCfg.mk true []) (Outcome.ok (Resp.mk 200 []))
        [Act.aenter, Act.aexit]).2 =
      [HandleRes.ok (Resp.mk 200 []), HandleRes.raised attributeErrTraceCtx]) := by
  decide

/-- C3 counterexample: the claim states that whenever awaiting the wrapped
operation raises, the span is (among other things) finished rather than
left open. At the concrete input where the proxy was entered via scoped
entry (`_self_have_context` true) with the trace_context flag enabled and
the wrapped operation is cancelled, `_handle_response` leaves the finish
count at zero, so the claim as stated is false. -/
theorem c3_deferred_scope_leaves_span_open :
    (handle_response (ClientCfg.mk true []) true ClientSpan.fresh
      (Outcome.exn (Exc.mk "CancelledError" false))).1.finishCount = 0 := by
  decide

/-- C3 amended: whenever awaiting the wrapped operation raises any
exception (any BaseException, including cancellation and timeout), the span
is tagged with an error marker and traceback information and the exception
is re-raised unchanged; the span is finished unless the operation was
consumed via scoped entry with the trace_context flag enabled, in which
case finishing is deferred and `_handle_response` leaves the finish count
untouched. -/
theorem c3_error_tagged_reraised (cfg : ClientCfg) (hc : Bool)
    (sp : ClientSpan) (e : Exc) :
    ((handle_response cfg hc sp (.exn e)).1.error = 1) ∧
    ((handle_response cfg hc sp (.exn e)).1.tracebackSet = true) ∧
    ((handle_response cfg hc sp (.exn e)).2 = .raised e) ∧
    (hc = false ∨ cfg.trace_context = false →
      (handle_response cfg hc sp (.exn e)).1.finishCount = sp.finishCount + 1) ∧
    (hc = true → cfg.trace_context = true →
      (handle_response cfg hc sp (.exn e)).1.finishCount = sp.finishCount) := by
  cases hc <;> rcases htc : cfg.trace_context <;>
    simp [handle_response, ClientSpan.set_traceback, ClientSpan.finish, htc]

/-- C3 witness: the amended theorem applied at a concrete input — a bare
awaited operation (no scoped entry) raising an ordinary exception tags the
fresh span and finishes it exactly once. -/
theorem c3_error_tagged_reraised_witness :
    ((handle_response (ClientCfg.mk false []) false ClientSpan.fresh
      (Outcome.exn (Exc.mk "Boom" true))).1.finishCount = ClientSpan.fresh.finishCount + 1) ∧
    ((handle_response (ClientCfg.mk false []) false ClientSpan.fresh
      (Outcome.exn (Exc.mk "Boom" true))).1.error = 1) ∧
    ((handle_response (ClientCfg.mk false []) false ClientSpan.fresh
      (Outcome.exn (Exc.mk "Boom" true))).2 = .raised (Exc.mk "Boom" true)) := by
  have h := c3_error_tagged_reraised (ClientCfg.mk false []) false ClientSpan.fresh
    (Exc.mk "Boom" true)
  exact ⟨h.2.2.2.1 (Or.inl rfl), h.1, h.2.2.1⟩

/-- C4: a `_WrappedResponseClass` proxy constructed while a context with
trace id T and a (parent) span id P was current captures that pair, and the
span created by `read` records trace id T and parent id P regardless of the
ambient identifiers of the task that performs the read. The hypotheses say
the captured identifiers are the pair (T, P) and that both are truthy
(nonzero, i.e. not None), which is what the claim presupposes by saying a
trace id and a parent span id were current at construction. -/
theorem c4_read_reparenting (ctx : CallCtx) (T P : Nat)
    (hT : T ≠ 0) (hP : P ≠ 0)
    (hcap : wrappedResponseInit ctx = RespCapture.mk T P) :
    ∀ ambientTrace ambientParent status len,
      ((wrappedResponseRead (wrappedResponseInit ctx)
          ambientTrace ambientParent status len).trace_id = T) ∧
      ((wrappedResponseRead (wrappedResponseInit ctx)
          ambientTrace ambientParent status len).parent_id = P) := by
  intro a b s l
  rw [hcap]
  simp [wrappedResponseRead, hT, hP]

/-- C4 witness: the theorem applied to a proxy constructed in a task whose
current span had trace id 7 and span id 9; a read performed under an
unrelated ambient context (identifiers 123 and 456) still records 7 and 9. -/
theorem c4_read_reparenting_witness :
    ((wrappedResponseRead (wrappedResponseInit
        (CallCtx.mk (some (SpanIds.mk 7 9)) 0 0)) 123 456 200 10).trace_id = 7) ∧
    ((wrappedResponseRead (wrappedResponseInit
        (CallCtx.mk (some (SpanIds.mk 7 9)) 0 0)) 123 456 200 10).parent_id = 9) := by
  exact c4_read_reparenting (CallCtx.mk (some (SpanIds.mk 7 9)) 0 0) 7 9
    (by decide) (by decide) (by decide) 123 456 200 10

/-- C5: for an inbound request with distributed tracing enabled whose
headers carry no valid trace identifier (the propagator extraction yields a
context with trace id 0), `trace_middleware_2x` explicitly activates the
empty `Context()` before starting the request span, so the span does not
inherit the trace id of whatever prior distributed request left a context
active on the reused concurrency unit: the new span takes a freshly minted
trace id instead. -/
theorem c5_context_reset_isolation (globalAnalytics : Bool) (cfg : MwConfig)
    (extracted prior fresh : Ctx) (out : HandlerOutcome)
    (hd : cfg.distributed_tracing_enabled = true)
    (hx : extracted.trace_id = 0)
    (hf : fresh.trace_id ≠ prior.trace_id) :
    ((trace_middleware_2x globalAnalytics cfg extracted prior fresh out).active
       = Ctx.empty) ∧
    ((trace_middleware_2x globalAnalytics cfg extracted prior fresh out).span.trace_id
       ≠ prior.trace_id) := by
  cases out with
  | ok s =>
      by_cases h3 : ((globalAnalytics && !(cfg.analytics_enabled == some false)) ||
          (cfg.analytics_enabled == some true)) = true <;>
        simp [trace_middleware_2x, startRequestSpan, MwSpan.set_traceback, hd, hx,
          h3, Ctx.empty, hf]
  | raise e =>
      by_cases h3 : ((globalAnalytics && !(cfg.analytics_enabled == some false)) ||
          (cfg.analytics_enabled == some true)) = true <;>
      by_cases h4 : e.isExc = true <;>
        simp [trace_middleware_2x, startRequestSpan, MwSpan.set_traceback, hd, hx,
          h3, h4, Ctx.empty, hf]

/-- C5 witness: the theorem applied at a concrete input — a prior
distributed context with trace id 55 is active, the new request has no
propagation headers, and the request span takes the fresh trace id 77, not
55. -/
theorem c5_context_reset_isolation_witness :
    ((trace_middleware_2x false (MwConfig.mk true none none "aiohttp-web")
        (Ctx.mk 0 0) (Ctx.mk 55 66) (Ctx.mk 77 88)
        (HandlerOutcome.ok 200)).active = Ctx.empty) ∧
    ((trace_middleware_2x false (MwConfig.mk true none none "aiohttp-web")
        (Ctx.mk 0 0) (Ctx.mk 55 66) (Ctx.mk 77 88)
        (HandlerOutcome.ok 200)).span.trace_id ≠ 55) := by
  exact c5_context_reset_isolation false (MwConfig.mk true none none "aiohttp-web")
    (Ctx.mk 0 0) (Ctx.mk 55 66) (Ctx.mk 77 88) (HandlerOutcome.ok 200)
    rfl rfl (by decide)

/-- C6 counterexample: the claim states that whenever the handler raises,
the request span is tagged with error/traceback information and the
exception re-raised. The middleware however catches only `Exception`: at
the concrete input where the handler raises KeyboardInterrupt (a
BaseException that is not an Exception; on modern runtimes cancellation
behaves the same), the exception is re-raised but the span is not tagged,
so the claim as stated is false. -/
theorem c6_nonexception_not_tagged :
    ((trace_middleware_2x false (MwConfig.mk false none none "aiohttp-web")
        Ctx.empty Ctx.empty (Ctx.mk 7 8)
        (HandlerOutcome.raise (Exc.mk "KeyboardInterrupt" false))).outcome =
      MwOutcome.raised (Exc.mk "KeyboardInterrupt" false)) ∧
    ((trace_middleware_2x false (MwConfig.mk false none none "aiohttp-web")
        Ctx.empty Ctx.empty (Ctx.mk 7 8)
        (HandlerOutcome.raise (Exc.mk "KeyboardInterrupt" false))).span.tracebackSet
      = false) := by
  decide

/-- C6 amended: when the wrapped handler is invoked, an exception of the
ordinary Exception hierarchy tags the request span with error and traceback
information and is re-raised; an exception outside that hierarchy is
re-raised without tagging; in every case the middleware itself never
executes the finish routine of the request span — the span is finished
(exactly once) by the separate finalization hook, whenever that hook finds
the span and the configuration in request scoped storage. -/
theorem c6_handler_error_path (globalAnalytics : Bool) (cfg : MwConfig)
    (extracted prior fresh : Ctx) (out : HandlerOutcome)
    (gq : Bool) (req : PrepReq) (resp : PrepResp) :
    ((trace_middleware_2x globalAnalytics cfg extracted prior fresh out).span.finishCount
       = 0) ∧
    (∀ e, out = .raise e → e.isExc = true →
      ((trace_middleware_2x globalAnalytics cfg extracted prior fresh out).span.tracebackSet
         = true) ∧
      ((trace_middleware_2x globalAnalytics cfg extracted prior fresh out).span.error
         = 1) ∧
      ((trace_middleware_2x globalAnalytics cfg extracted prior fresh out).outcome
         = .raised e)) ∧
    (∀ sp c2, req.storage.spanKey = some sp → req.storage.configKey = some c2 →
      ∃ sp2, on_prepare gq req resp = .finalized sp2 ∧
        sp2.finishCount = sp.finishCount + 1) := by
  refine ⟨?_, ?_, ?_⟩
  · cases out with
    | ok s =>
        by_cases h3 : ((globalAnalytics && !(cfg.analytics_enabled == some false)) ||
            (cfg.analytics_enabled == some true)) = true <;>
          simp [trace_middleware_2x, startRequestSpan, MwSpan.set_traceback, h3]
    | raise e =>
        by_cases h3 : ((globalAnalytics && !(cfg.analytics_enabled == some false)) ||
            (cfg.analytics_enabled == some true)) = true <;>
        by_cases h4 : e.isExc = true <;>
          simp [trace_middleware_2x, startRequestSpan, MwSpan.set_traceback, h3, h4]
  · intro e he hexc
    subst he
    by_cases h3 : ((globalAnalytics && !(cfg.analytics_enabled == some false)) ||
        (cfg.analytics_enabled == some true)) = true <;>
      simp [trace_middleware_2x, startRequestSpan, MwSpan.set_traceback, h3, hexc]
  · intro sp c2 hs hc
    obtain ⟨sp2, h1, h2, _⟩ := on_prepare_finalized gq req resp sp c2 hs hc
    exact ⟨sp2, h1, h2⟩

/-- C6 witness: the amended theorem applied at a concrete input — a handler
raising an ordinary Exception leaves a tagged, unfinished span, and the
finalization hook run on storage holding that span finishes it once. -/
theorem c6_handler_error_path_witness :
    ((trace_middleware_2x false (MwConfig.mk false none none "aiohttp-web")
        Ctx.empty Ctx.empty (Ctx.mk 7 8)
        (HandlerOutcome.raise (Exc.mk "ValueError" true))).span.tracebackSet = true) ∧
    ((trace_middleware_2x false (MwConfig.mk false none none "aiohttp-web")
        Ctx.empty Ctx.empty (Ctx.mk 7 8)
        (HandlerOutcome.raise (Exc.mk "ValueError" true))).span.finishCount = 0) ∧
    (∃ sp2, on_prepare false
        (PrepReq.mk
          (ReqStorage.mk (some (startRequestSpan Ctx.empty (Ctx.mk 7 8)))
            (some (Ctx.mk 7 8)) (some (MwConfig.mk false none none "aiohttp-web")))
          "GET" (RouteInfo.mk false none none none) "http://h/p" "")
        (PrepResp.mk 200) = .finalized sp2 ∧
      sp2.finishCount = (startRequestSpan Ctx.empty (Ctx.mk 7 8)).finishCount + 1) := by
  have h := c6_handler_error_path false (MwConfig.mk false none none "aiohttp-web")
    Ctx.empty Ctx.empty (Ctx.mk 7 8)
    (HandlerOutcome.raise (Exc.mk "ValueError" true)) false
    (PrepReq.mk
      (ReqStorage.mk (some (startRequestSpan Ctx.empty (Ctx.mk 7 8)))
        (some (Ctx.mk 7 8)) (some (MwConfig.mk false none none "aiohttp-web")))
      "GET" (RouteInfo.mk false none none none) "http://h/p" "")
    (PrepResp.mk 200)
  refine ⟨(h.2.1 (Exc.mk "ValueError" true) rfl rfl).1, h.1, ?_⟩
  exact h.2.2 (startRequestSpan Ctx.empty (Ctx.mk 7 8))
    (MwConfig.mk false none none "aiohttp-web") rfl rfl

/-- C7: for a finalized request span, when the route resource exists the
resource label is the HTTP method followed by the best available route
descriptor in priority order static path, else formatter string, else
prefix (availability meaning Python truthiness: present and nonempty); when
no route resource exists the resource is the response status rendered as a
string, with no method in front. -/
theorem c7_resource_naming (gq : Bool) (req : PrepReq) (resp : PrepResp)
    (sp : MwSpan) (cfg : MwConfig)
    (hs : req.storage.spanKey = some sp) (hc : req.storage.configKey = some cfg) :
    (req.route.present = true → truthyStr req.route.path = true →
      ∃ sp2, on_prepare gq req resp = .finalized sp2 ∧
        sp2.resource = req.method ++ " " ++ req.route.path.getD "") ∧
    (req.route.present = true → truthyStr req.route.path = false →
      truthyStr req.route.formatter = true →
      ∃ sp2, on_prepare gq req resp = .finalized sp2 ∧
        sp2.resource = req.method ++ " " ++ req.route.formatter.getD "") ∧
    (req.route.present = true → truthyStr req.route.path = false →
      truthyStr req.route.formatter = false → truthyStr req.route.pfx = true →
      ∃ sp2, on_prepare gq req resp = .finalized sp2 ∧
        sp2.resource = req.method ++ " " ++ req.route.pfx.getD "") ∧
    (req.route.present = false →
      ∃ sp2, on_prepare gq req resp = .finalized sp2 ∧
        sp2.resource = toString resp.status) := by
  obtain ⟨sp2, h1, _, _, _, _, _, hres⟩ := on_prepare_finalized gq req resp sp cfg hs hc
  refine ⟨?_, ?_, ?_, ?_⟩
  · intro hp hpath
    exact ⟨sp2, h1, by rw [hres]; simp [hp, hpath]⟩
  · intro hp hpath hfmt
    exact ⟨sp2, h1, by rw [hres]; simp [hp, hpath, hfmt]⟩
  · intro hp hpath hfmt hpfx
    exact ⟨sp2, h1, by rw [hres]; simp [hp, hpath, hfmt, hpfx]⟩
  · intro hp
    exact ⟨sp2, h1, by rw [hres]; simp [hp]⟩

/-- C7 witness: the theorem applied at two concrete inputs — method GET
with static route path /users/{id} finalizes with resource
"GET /users/{id}", and a request with no route resource and status 404
finalizes with resource "404". -/
theorem c7_resource_naming_witness :
    (∃ sp2, on_prepare false
        (PrepReq.mk
          (ReqStorage.mk (some (startRequestSpan Ctx.empty (Ctx.mk 1 2)))
            none (some (MwConfig.mk false none none "aiohttp-web")))
          "GET" (RouteInfo.mk true (some "/users/{id}") none none)
          "http://h/users/3" "")
        (PrepResp.mk 200) = .finalized sp2 ∧
      sp2.resource = "GET /users/{id}") ∧
    (∃ sp2, on_prepare false
        (PrepReq.mk
          (ReqStorage.mk (some (startRequestSpan Ctx.empty (Ctx.mk 1 2)))
            none (some (MwConfig.mk false none none "aiohttp-web")))
          "GET" (RouteInfo.mk false none none none) "http://h/nothing" "")
        (PrepResp.mk 404) = .finalized sp2 ∧
      sp2.resource = "404") := by
  constructor
  · obtain ⟨sp2, h1, h2⟩ :=
      (c7_resource_naming false
        (PrepReq.mk
          (ReqStorage.mk (some (startRequestSpan Ctx.empty (Ctx.mk 1 2)))
            none (some (MwConfig.mk false none none "aiohttp-web")))
          "GET" (RouteInfo.mk true (some "/users/{id}") none none)
          "http://h/users/3" "")
        (PrepResp.mk 200) (startRequestSpan Ctx.empty (Ctx.mk 1 2))
        (MwConfig.mk false none none "aiohttp-web") rfl rfl).1 rfl (by decide)
    exact ⟨sp2, h1, by rw [h2]; rfl⟩
  · obtain ⟨sp2, h1, h2⟩ :=
      (c7_resource_naming false
        (PrepReq.mk
          (ReqStorage.mk (some (startRequestSpan Ctx.empty (Ctx.mk 1 2)))
            none (some (MwConfig.mk false none none "aiohttp-web")))
          "GET" (RouteInfo.mk false none none none) "http://h/nothing" "")
        (PrepResp.mk 404) (startRequestSpan Ctx.empty (Ctx.mk 1 2))
        (MwConfig.mk false none none "aiohttp-web") rfl rfl).2.2.2 rfl
    exact ⟨sp2, h1, by rw [h2]; rfl⟩

/-- C8 counterexample: the claim states that for every finalized inbound
request span the error flag is set if and only if the response status is in
[500, 600), and that status 204 yields the error flag unset. The hook only
ever sets the flag and never clears it: at the concrete input where the
span reaches finalization with its error flag already set (as happens when
the handler raised an HTTP exception that the middleware tagged before the
framework turned it into a non-5xx response) and the response status is
204, the finalized span still carries error = 1, so the claim as stated is
false. -/
theorem c8_error_flag_204_counterexample :
    (prepErrorFlag (on_prepare false
      (PrepReq.mk
        (ReqStorage.mk (some { startRequestSpan Ctx.empty (Ctx.mk 1 2) with error := 1 })
          none (some (MwConfig.mk false none none "aiohttp-web")))
        "GET" (RouteInfo.mk false none none none) "http://h/p" "")
      (PrepResp.mk 204)) = some 1) := by
  decide

/-- C8 amended: the finalization hook sets the error flag when the response
status is in [500, 600) and leaves the flag unchanged otherwise (it never
clears it); the status code tag always equals the response status. Hence
for every request span whose error flag is clear when the hook runs, the
finalized error flag is set if and only if the status is in [500, 600):
status 503 yields error set and status tag 503, status 204 yields error
unset. -/
theorem c8_error_flag_amended (gq : Bool) (req : PrepReq) (resp : PrepResp)
    (sp : MwSpan) (cfg : MwConfig)
    (hs : req.storage.spanKey = some sp) (hc : req.storage.configKey = some cfg)
    (he : sp.error = 0) :
    ∃ sp2, on_prepare gq req resp = .finalized sp2 ∧
      (sp2.error = 1 ↔ (500 ≤ resp.status ∧ resp.status < 600)) ∧
      (sp2.error = if 500 ≤ resp.status ∧ resp.status < 600 then 1 else 0) ∧
      sp2.statusTag = some resp.status := by
  obtain ⟨sp2, h1, _, hst, _, _, herr, _⟩ := on_prepare_finalized gq req resp sp cfg hs hc
  rw [he] at herr
  refine ⟨sp2, h1, ?_, herr, hst⟩
  rw [herr]
  by_cases h : (500 ≤ resp.status ∧ resp.status < 600) <;> simp [h]

/-- C8 witness: the amended theorem applied at two concrete inputs — a
clean span finalized with status 503 has error 1 and status tag 503, and a
clean span finalized with status 204 has error 0 and status tag 204. -/
theorem c8_error_flag_amended_witness :
    (∃ sp2, on_prepare false
        (PrepReq.mk
          (ReqStorage.mk (some (startRequestSpan Ctx.empty (Ctx.mk 1 2)))
            none (some (MwConfig.mk false none none "aiohttp-web")))
          "GET" (RouteInfo.mk false none none none) "http://h/p" "")
        (PrepResp.mk 503) = .finalized sp2 ∧
      sp2.error = 1 ∧ sp2.statusTag = some 503) ∧
    (∃ sp2, on_prepare false
        (PrepReq.mk
          (ReqStorage.mk (some (startRequestSpan Ctx.empty (Ctx.mk 1 2)))
            none (some (MwConfig.mk false none none "aiohttp-web")))
          "GET" (RouteInfo.mk false none none none) "http://h/p" "")
        (PrepResp.mk 204) = .finalized sp2 ∧
      sp2.error = 0 ∧ sp2.statusTag = some 204) := by
  constructor
  · obtain ⟨sp2, h1, h2, _, h3⟩ := c8_error_flag_amended false
      (PrepReq.mk
        (ReqStorage.mk (some (startRequestSpan Ctx.empty (Ctx.mk 1 2)))
          none (some (MwConfig.mk false none none "aiohttp-web")))
        "GET" (RouteInfo.mk false none none none) "http://h/p" "")
      (PrepResp.mk 503) (startRequestSpan Ctx.empty (Ctx.mk 1 2))
      (MwConfig.mk false none none "aiohttp-web") rfl rfl rfl
    exact ⟨sp2, h1, h2.mpr (by decide), h3⟩
  · obtain ⟨sp2, h1, _, h2, h3⟩ := c8_error_flag_amended false
      (PrepReq.mk
        (ReqStorage.mk (some (startRequestSpan Ctx.empty (Ctx.mk 1 2)))
          none (some (MwConfig.mk false none none "aiohttp-web")))
        "GET" (RouteInfo.mk false none none none) "http://h/p" "")
      (PrepResp.mk 204) (startRequestSpan Ctx.empty (Ctx.mk 1 2))
      (MwConfig.mk false none none "aiohttp-web") rfl rfl rfl
    refine ⟨sp2, h1, ?_, h3⟩
    rw [h2]
    decide

/-- C9 counterexample: the claim states that whenever any of the three
request storage keys (root span, trace context, resolved configuration) is
missing, the finalization hook is a no-op and never raises. At the concrete
input where the span key is present but the configuration key is missing,
the hook performs the item lookup `request[REQUEST_CONFIG_KEY]` and raises
KeyError, so the claim as stated is false. -/
theorem c9_missing_config_raises :
    (prepRaisesKeyError (on_prepare false
      (PrepReq.mk
        (ReqStorage.mk (some (startRequestSpan Ctx.empty (Ctx.mk 1 2))) none none)
        "GET" (RouteInfo.mk false none none none) "http://h/p" "")
      (PrepResp.mk 200)) = true) := by
  decide

/-- C9 amended: the finalization hook is a no-op (and cannot raise) exactly
when the root span key is missing from request scoped storage; when the
span key is present, absence of the trace context key changes nothing, but
absence of the configuration key makes the hook raise a key lookup error
after tagging the span and before finishing it. -/
theorem c9_span_guard_amended (gq : Bool) (req : PrepReq) (resp : PrepResp) :
    (req.storage.spanKey = none → on_prepare gq req resp = .noop) ∧
    (∀ sp, req.storage.spanKey = some sp → req.storage.configKey = none →
      ∃ sp2, on_prepare gq req resp = .keyErrorAt sp2 ∧
        sp2.finishCount = sp.finishCount) := by
  constructor
  · intro h
    simp [on_prepare, h]
  · intro sp hs hc
    simp only [on_prepare, hs, hc]
    split_ifs <;> exact ⟨_, rfl, by simp⟩

/-- C9 witness: the amended theorem applied at concrete inputs — storage
with no span key makes the hook a no-op, and storage with a span but no
configuration raises the key lookup error without finishing the span. -/
theorem c9_span_guard_amended_witness :
    (on_prepare false
      (PrepReq.mk (ReqStorage.mk none none none)
        "GET" (RouteInfo.mk false none none none) "http://h/p" "")
      (PrepResp.mk 200) = .noop) ∧
    (∃ sp2, on_prepare false
        (PrepReq.mk
          (ReqStorage.mk (some (startRequestSpan Ctx.empty (Ctx.mk 1 2))) none none)
          "GET" (RouteInfo.mk false none none none) "http://h/p" "")
        (PrepResp.mk 200) = .keyErrorAt sp2 ∧
      sp2.finishCount = (startRequestSpan Ctx.empty (Ctx.mk 1 2)).finishCount) := by
  constructor
  · exact (c9_span_guard_amended false
      (PrepReq.mk (ReqStorage.mk none none none)
        "GET" (RouteInfo.mk false none none none) "http://h/p" "")
      (PrepResp.mk 200)).1 rfl
  · exact (c9_span_guard_amended false
      (PrepReq.mk
        (ReqStorage.mk (some (startRequestSpan Ctx.empty (Ctx.mk 1 2))) none none)
        "GET" (RouteInfo.mk false none none none) "http://h/p" "")
      (PrepResp.mk 200)).2 (startRequestSpan Ctx.empty (Ctx.mk 1 2)) rfl rfl

/-- C10: for every application object, tracer and service name, the live
`trace_app` returns the Python value None and leaves the application
completely unchanged — its middleware list, its response prepare hook list,
its configuration entry and its traced marker are exactly what they were
before the call, because the body of the function is `pass`. -/
theorem c10_trace_app_is_noop (app : AppState) (tracer : TracerRef)
    (service : String) :
    trace_app app tracer service = (app, none) ∧
    (trace_app app tracer service).1.middlewares = app.middlewares ∧
    (trace_app app tracer service).1.on_response_prepare = app.on_response_prepare ∧
    (trace_app app tracer service).1.configEntry = app.configEntry ∧
    (trace_app app tracer service).1.datadogTraceFlag = app.datadogTraceFlag :=
  ⟨rfl, rfl, rfl, rfl, rfl⟩

end DDAiohttp
